import Mathlib

/-!
Verification of the CSV structural validators of the `opticif` repository
(`opticif/validators.py`): `validate_node_csv_structure` and
`validate_matrix_csv_structure`.

The validators operate on CSV files.  We embed them over the parsed
representation of a file: a `List (List String)`, one inner list of raw
cell strings per record, exactly as Python's `csv.reader` yields them
(an empty line parses to the empty record `[]`).  The Python exceptions
are embedded as explicit outcome values: each `CSVStructureError` branch
of the source becomes a distinct constructor (each constructor stands
for the specific message template of the source, which names the file),
and the non-structural runtime exceptions that the source can raise
(`TypeError` from a membership test on `None`, `AttributeError` from
`None.strip()`) get constructors of their own, kept distinct from the
structural errors.
-/

namespace OptiCIF

/-- Outcome of `validate_node_csv_structure`.  The first four constructors
are the normal return and the three `CSVStructureError` messages of the
source; the last two model non-structural Python runtime errors. -/
inductive NodeOutcome
  /-- Normal return (implicit `None`): validation succeeded. -/
  | ok
  /-- `CSVStructureError`: "... should have a header with a 'name' column." -/
  | errMissingName
  /-- `CSVStructureError`: "... contains an empty value in the 'name' column." -/
  | errEmptyValue
  /-- `CSVStructureError`: "... contains duplicate names in the 'name' column." -/
  | errDuplicate
  /-- `TypeError` raised by `"name" not in reader.fieldnames` when
  `fieldnames` is `None` (empty file: no header row at all). -/
  | errTypeError
  /-- `AttributeError` raised by `row["name"].strip()` when the row is too
  short so `csv.DictReader` filled the `name` key with `restval = None`. -/
  | errAttributeError
  deriving DecidableEq, Repr

/-- Outcome of `validate_matrix_csv_structure`. -/
inductive MatrixOutcome
  /-- Normal return: the matrix is square and binary. -/
  | ok
  /-- `CSVStructureError`: "The matrix in '...' is not square. ..." -/
  | errNotSquare
  /-- `CSVStructureError`: "The matrix in '...' is not binary. Found
  'value' at row i, column j." with 1-based positions. -/
  | errNotBinary (value : String) (row col : Nat)
  deriving DecidableEq, Repr

/-- Index of the last occurrence of `x` in `l`, if any.  Used to model
which cell `csv.DictReader` binds to a field: `dict(zip(fieldnames, row))`
keeps the value of the last occurrence of a duplicated field name. -/
def lastIdxOf : List String → String → Option Nat
  | [], _ => none
  | a :: l, x =>
    match lastIdxOf l x with
    | some j => some (j + 1)
    | none => if a = x then some 0 else none

/-- The code points CPython's `str.isspace()` holds for, which are exactly
the characters `str.strip()` with no argument removes: the ASCII control
whitespace 0x09-0x0D, the file/group/record/unit separators 0x1C-0x1F,
space, next line 0x85, and the Unicode space and line/paragraph separators
(no-break space 0xA0, ogham space 0x1680, en/em and related spaces
0x2000-0x200A, 0x2028, 0x2029, narrow no-break 0x202F, mathematical space
0x205F, ideographic space 0x3000). -/
def pyWhitespace : List Nat :=
  [0x09, 0x0A, 0x0B, 0x0C, 0x0D, 0x1C, 0x1D, 0x1E, 0x1F, 0x20, 0x85, 0xA0,
   0x1680, 0x2000, 0x2001, 0x2002, 0x2003, 0x2004, 0x2005, 0x2006, 0x2007,
   0x2008, 0x2009, 0x200A, 0x2028, 0x2029, 0x202F, 0x205F, 0x3000]

/-- Whether `c` is whitespace in the sense of Python's `str.strip()` /
`str.isspace()`. -/
def pyIsSpace (c : Char) : Bool :=
  pyWhitespace.contains c.toNat

/-- Python's `str.strip()` with no argument: remove leading and trailing
characters of Python's whitespace class. -/
def pyStrip (s : String) : String :=
  String.mk (((s.data.dropWhile pyIsSpace).reverse.dropWhile pyIsSpace).reverse)

/-- The value `row["name"]` produced by `csv.DictReader` for a data row,
given the header.  `dict(zip(fieldnames, row))` pairs fields with cells by
position (last occurrence of a duplicated field wins) and fields beyond
the row's length are filled with `restval = None`, modelled as `none`.
Returns `none` also when `"name"` is not a header field at all (the
source only reads the value after checking `"name" in fieldnames`). -/
def dictGet (header row : List String) : Option String :=
  match lastIdxOf header "name" with
  | none => none
  | some j => row[j]?

/-- The record loop of `validate_node_csv_structure` (source lines 38-50):
for each row, take `row["name"].strip()`; fail on an empty result, fail on
a result already in the seen set `names`, otherwise add it and continue.
`csv.DictReader` skips records parsed from blank lines (`row == []`). -/
def checkRows (header : List String) : List (List String) → List String → NodeOutcome
  | [], _ => .ok
  | row :: rest, seen =>
    if row = [] then checkRows header rest seen
    else
      match dictGet header row with
      | none => .errAttributeError
      | some v =>
        if pyStrip v = "" then .errEmptyValue
        else if pyStrip v ∈ seen then .errDuplicate
        else checkRows header rest (pyStrip v :: seen)

/-- Embedding of `validate_node_csv_structure` over the parsed record list
of the file.  An empty file gives `csv.DictReader` no header row, so
`reader.fieldnames` is `None` and the membership test `"name" not in
reader.fieldnames` raises `TypeError`; otherwise the first record is the
header, and the data records are checked by `checkRows`. -/
def validate_node_csv_structure : List (List String) → NodeOutcome
  | [] => .errTypeError
  | header :: rows =>
    if "name" ∈ header then checkRows header rows []
    else .errMissingName

/-- The trimmed `name` values contributed by the data rows, in file order:
blank records are skipped (as `csv.DictReader` does) and rows whose `name`
cell is missing contribute nothing. -/
def trimmedNames (header : List String) : List (List String) → List String
  | [] => []
  | row :: rest =>
    if row = [] then trimmedNames header rest
    else
      match dictGet header row with
      | none => trimmedNames header rest
      | some v => pyStrip v :: trimmedNames header rest

/-- The inner cell loop of `validate_matrix_csv_structure` (source lines
78-82): the first cell of `row` (0-based position counted from `j`) whose
exact string value is neither "0" nor "1", with that position. -/
def findNonBinary : List String → Nat → Option (String × Nat)
  | [], _ => none
  | c :: rest, j =>
    if c = "0" ∨ c = "1" then findNonBinary rest (j + 1)
    else some (c, j)

/-- The row loop of `validate_matrix_csv_structure` (source lines 71-82):
row `i` (0-based) first has its length compared against the total row
count, then its cells checked for binary content; positions in the
binary-error payload are 1-based, as in the source's message. -/
def matrixLoop (row_count : Nat) : List (List String) → Nat → MatrixOutcome
  | [], _ => .ok
  | row :: rest, i =>
    if row.length ≠ row_count then .errNotSquare
    else
      match findNonBinary row 0 with
      | some (c, j) => .errNotBinary c (i + 1) (j + 1)
      | none => matrixLoop row_count rest (i + 1)

/-- Embedding of `validate_matrix_csv_structure` over the parsed cell grid
of the file: `matrix = list(csv.reader(f))`, `row_count = len(matrix)`,
then the row loop. -/
def validate_matrix_csv_structure (matrix : List (List String)) : MatrixOutcome :=
  matrixLoop matrix.length matrix 0

/-- The UTF-8 byte-order mark, as the code point it decodes to. -/
def BOM : Char := '\uFEFF'

/-- The `encoding="utf-8-sig"` decoding step of the matrix validator
(source line 66), at the level of decoded characters: a single leading
byte-order mark, if present, is stripped; nothing else changes. -/
def decode_utf8_sig : List Char → List Char
  | [] => []
  | c :: rest => if c = BOM then rest else c :: rest

/-- Split a character list at every occurrence of the delimiter `d`; the
delimiters are consumed.  Always returns at least one (possibly empty)
group. -/
def splitOnChar (d : Char) : List Char → List (List Char)
  | [] => [[]]
  | c :: rest =>
    let groups := splitOnChar d rest
    if c = d then [] :: groups
    else
      match groups with
      | g :: gs => (c :: g) :: gs
      | [] => [[c]]

/-- The lines of the file content: newline-separated, with the empty
last piece produced by a terminating newline dropped (a text file ending
in a newline has no extra empty record, but an empty line in the middle
does yield one). -/
def csvLines (content : List Char) : List (List Char) :=
  let ls := splitOnChar '\n' content
  if ls.getLast? = some [] then ls.dropLast else ls

/-- One record of `csv.reader` from one line, for content free of quote
characters: an empty line is the empty record, any other line is split at
the delimiter. -/
def parseRow (d : Char) (line : List Char) : List String :=
  if line = [] then []
  else (splitOnChar d line).map (fun cs => String.mk cs)

/-- The `list(csv.reader(f, delimiter=...))` step of the matrix validator
over decoded file content, for content free of quote characters. -/
def parseMatrixCSV (d : Char) (content : List Char) : List (List String) :=
  (csvLines content).map (parseRow d)

/-- The whole matrix-validator pipeline from raw decoded-with-utf-8-sig
file content, with the default delimiter `;`: decode (stripping a leading
byte-order mark), parse, validate. -/
def validate_matrix_file (content : List Char) : MatrixOutcome :=
  validate_matrix_csv_structure (parseMatrixCSV ';' (decode_utf8_sig content))

/-! ## Helper lemmas -/

/-- A row all of whose cells are the strings "0" or "1" has no non-binary
cell, whatever the starting position counter. -/
theorem findNonBinary_eq_none (row : List String)
    (h : ∀ c ∈ row, c = "0" ∨ c = "1") : ∀ j, findNonBinary row j = none := by
  induction row with
  | nil => intro j; rfl
  | cons c rest ih =>
    intro j
    have hc := h c (List.mem_cons_self c rest)
    simp only [findNonBinary, if_pos hc]
    exact ih (fun c' hc' => h c' (List.mem_cons_of_mem _ hc')) (j + 1)

/-- The matrix row loop succeeds when every remaining row has the expected
length and only binary cells. -/
theorem matrixLoop_ok (R : Nat) :
    ∀ (rows : List (List String)) (i : Nat),
    (∀ r ∈ rows, r.length = R) →
    (∀ r ∈ rows, ∀ c ∈ r, c = "0" ∨ c = "1") →
    matrixLoop R rows i = .ok := by
  intro rows
  induction rows with
  | nil => intro i _ _; rfl
  | cons row rest ih =>
    intro i hlen hbin
    have h1 : row.length = R := hlen row (List.mem_cons_self _ _)
    have h2 := findNonBinary_eq_none row (hbin row (List.mem_cons_self _ _)) 0
    simp only [matrixLoop]
    rw [if_neg (not_not_intro h1), h2]
    exact ih (i + 1) (fun r hr => hlen r (List.mem_cons_of_mem _ hr))
      (fun r hr => hbin r (List.mem_cons_of_mem _ hr))

/-- The matrix row loop hits the squareness error at the first wrong-length
row, provided all earlier rows have the expected length and binary cells. -/
theorem matrixLoop_not_square (R : Nat) :
    ∀ (rows : List (List String)) (i k : Nat) (row : List String),
    rows[k]? = some row →
    row.length ≠ R →
    (∀ i' < k, ∀ r, rows[i']? = some r → r.length = R ∧ ∀ c ∈ r, c = "0" ∨ c = "1") →
    matrixLoop R rows i = .errNotSquare := by
  intro rows
  induction rows with
  | nil => intro i k row hk; simp at hk
  | cons r0 rest ih =>
    intro i k row hk hlen hprev
    cases k with
    | zero =>
      obtain rfl : r0 = row := by simpa using hk
      simp only [matrixLoop]
      rw [if_pos hlen]
    | succ k' =>
      have h0 := hprev 0 (Nat.succ_pos k') r0 (by simp)
      simp only [matrixLoop]
      rw [if_neg (not_not_intro h0.1), findNonBinary_eq_none r0 h0.2 0]
      exact ih (i + 1) k' row (by simpa using hk) hlen
        (fun i' hi' r hr => hprev (i' + 1) (Nat.succ_lt_succ hi') r (by simpa using hr))

/-- The inner cell loop reports the first non-binary cell of a row, with
its position shifted by the starting counter. -/
theorem findNonBinary_first (v : String) (hv : ¬(v = "0" ∨ v = "1")) :
    ∀ (row : List String) (j j0 : Nat),
    row[j]? = some v →
    (∀ j' < j, ∀ c, row[j']? = some c → c = "0" ∨ c = "1") →
    findNonBinary row j0 = some (v, j0 + j) := by
  intro row
  induction row with
  | nil => intro j j0 hj; simp at hj
  | cons c rest ih =>
    intro j j0 hj hprev
    cases j with
    | zero =>
      obtain rfl : c = v := by simpa using hj
      simp only [findNonBinary]
      rw [if_neg hv]
      simp
    | succ j' =>
      have hc := hprev 0 (Nat.succ_pos _) c (by simp)
      simp only [findNonBinary, if_pos hc]
      rw [ih j' (j0 + 1) (by simpa using hj)
        (fun j'' hj'' c' hc' => hprev (j'' + 1) (Nat.succ_lt_succ hj'') c' (by simpa using hc'))]
      have : j0 + 1 + j' = j0 + (j' + 1) := by omega
      rw [this]

/-- The matrix row loop reports the first non-binary cell in row-major
order, with 1-based positions, when all rows have the expected length,
all rows before row `i` are fully binary, and within row `i` all cells
before position `j` are binary. -/
theorem matrixLoop_not_binary (R : Nat) (v : String) (j : Nat)
    (hv : ¬(v = "0" ∨ v = "1")) :
    ∀ (rows : List (List String)) (idx i : Nat) (row : List String),
    rows[i]? = some row →
    row[j]? = some v →
    (∀ r ∈ rows, r.length = R) →
    (∀ i' < i, ∀ r, rows[i']? = some r → ∀ c ∈ r, c = "0" ∨ c = "1") →
    (∀ j' < j, ∀ c, row[j']? = some c → c = "0" ∨ c = "1") →
    matrixLoop R rows idx = .errNotBinary v (idx + i + 1) (j + 1) := by
  intro rows
  induction rows with
  | nil => intro idx i row hi; simp at hi
  | cons r0 rest ih =>
    intro idx i row hi hj hlen hrowprev hcolprev
    cases i with
    | zero =>
      obtain rfl : r0 = row := by simpa using hi
      simp only [matrixLoop]
      rw [if_neg (not_not_intro (hlen r0 (List.mem_cons_self _ _)))]
      rw [findNonBinary_first v hv r0 j 0 hj hcolprev]
      simp
    | succ i' =>
      have hb := hrowprev 0 (Nat.succ_pos _) r0 (by simp)
      simp only [matrixLoop]
      rw [if_neg (not_not_intro (hlen r0 (List.mem_cons_self _ _)))]
      rw [findNonBinary_eq_none r0 hb 0]
      have hrec := ih (idx + 1) i' row (by simpa using hi) hj
        (fun r hr => hlen r (List.mem_cons_of_mem _ hr))
        (fun i'' hi'' r hr => hrowprev (i'' + 1) (Nat.succ_lt_succ hi'') r (by simpa using hr))
        hcolprev
      rw [show idx + (i' + 1) + 1 = idx + 1 + i' + 1 from by omega]
      exact hrec

/-- The node record loop succeeds when every non-blank remaining record
has a present `name` cell with non-blank stripped value, and the seen set
together with the remaining stripped names has no repetition. -/
theorem checkRows_ok (header : List String) :
    ∀ (rows : List (List String)) (seen : List String),
    (∀ r ∈ rows, r ≠ [] → ∃ v, dictGet header r = some v ∧ pyStrip v ≠ "") →
    (seen ++ trimmedNames header rows).Nodup →
    checkRows header rows seen = .ok := by
  intro rows
  induction rows with
  | nil => intro seen _ _; rfl
  | cons row rest ih =>
    intro seen hvals hnodup
    by_cases hr : row = []
    · simp only [checkRows, if_pos hr]
      have htn : trimmedNames header (row :: rest) = trimmedNames header rest := by
        simp only [trimmedNames, if_pos hr]
      rw [htn] at hnodup
      exact ih seen (fun r h hne => hvals r (List.mem_cons_of_mem _ h) hne) hnodup
    · obtain ⟨v, hv, hvne⟩ := hvals row (List.mem_cons_self _ _) hr
      have htn : trimmedNames header (row :: rest) = pyStrip v :: trimmedNames header rest := by
        simp only [trimmedNames, if_neg hr, hv]
      rw [htn] at hnodup
      have hnodup' : (pyStrip v :: (seen ++ trimmedNames header rest)).Nodup :=
        List.perm_middle.nodup_iff.mp hnodup
      have hnotin : pyStrip v ∉ seen := fun hmem =>
        (List.nodup_cons.mp hnodup').1 (List.mem_append_left _ hmem)
      simp only [checkRows, if_neg hr, hv]
      rw [if_neg hvne, if_neg hnotin]
      exact ih (pyStrip v :: seen)
        (fun r h hne => hvals r (List.mem_cons_of_mem _ h) hne) hnodup'

/-- The node record loop ends in the duplicate error when every non-blank
remaining record has a present, non-blank stripped name, the seen set is
duplicate-free, but the seen set plus the remaining stripped names has a
repetition. -/
theorem checkRows_duplicate (header : List String) :
    ∀ (rows : List (List String)) (seen : List String),
    (∀ r ∈ rows, r ≠ [] → ∃ v, dictGet header r = some v ∧ pyStrip v ≠ "") →
    seen.Nodup →
    ¬ (seen ++ trimmedNames header rows).Nodup →
    checkRows header rows seen = .errDuplicate := by
  intro rows
  induction rows with
  | nil =>
    intro seen _ hseen hdup
    exact absurd (by simpa [trimmedNames] using hseen) hdup
  | cons row rest ih =>
    intro seen hvals hseen hdup
    by_cases hr : row = []
    · simp only [checkRows, if_pos hr]
      have htn : trimmedNames header (row :: rest) = trimmedNames header rest := by
        simp only [trimmedNames, if_pos hr]
      rw [htn] at hdup
      exact ih seen (fun r h hne => hvals r (List.mem_cons_of_mem _ h) hne) hseen hdup
    · obtain ⟨v, hv, hvne⟩ := hvals row (List.mem_cons_self _ _) hr
      have htn : trimmedNames header (row :: rest) = pyStrip v :: trimmedNames header rest := by
        simp only [trimmedNames, if_neg hr, hv]
      rw [htn] at hdup
      by_cases hmem : pyStrip v ∈ seen
      · simp only [checkRows, if_neg hr, hv]
        rw [if_neg hvne, if_pos hmem]
      · have hseen' : (pyStrip v :: seen).Nodup := List.nodup_cons.mpr ⟨hmem, hseen⟩
        have hdup' : ¬ ((pyStrip v :: seen) ++ trimmedNames header rest).Nodup := by
          intro h
          exact hdup (List.perm_middle.nodup_iff.mpr (by simpa using h))
        simp only [checkRows, if_neg hr, hv]
        rw [if_neg hvne, if_neg hmem]
        exact ih (pyStrip v :: seen)
          (fun r h hne => hvals r (List.mem_cons_of_mem _ h) hne) hseen' hdup'

/-- The node record loop ends in the empty-value error when record `k` is
non-blank with a present `name` cell stripping to the empty string, and
every earlier non-blank record has a present, non-blank stripped name with
no repetition among them or against the seen set. -/
theorem checkRows_emptyValue (header : List String) :
    ∀ (rows : List (List String)) (seen : List String) (k : Nat) (row : List String),
    rows[k]? = some row →
    row ≠ [] →
    (∃ v, dictGet header row = some v ∧ pyStrip v = "") →
    (∀ i < k, ∀ r, rows[i]? = some r → r ≠ [] →
      ∃ v, dictGet header r = some v ∧ pyStrip v ≠ "") →
    (seen ++ trimmedNames header (rows.take k)).Nodup →
    checkRows header rows seen = .errEmptyValue := by
  intro rows
  induction rows with
  | nil => intro seen k row hk; simp at hk
  | cons r0 rest ih =>
    intro seen k row hk hne hempty hprev hnodup
    cases k with
    | zero =>
      obtain rfl : r0 = row := by simpa using hk
      obtain ⟨v, hv, hve⟩ := hempty
      simp only [checkRows, if_neg hne, hv]
      rw [if_pos hve]
    | succ k' =>
      by_cases hr : r0 = []
      · simp only [checkRows, if_pos hr]
        have htn : trimmedNames header ((r0 :: rest).take (k' + 1))
            = trimmedNames header (rest.take k') := by
          rw [List.take_succ_cons]
          simp only [trimmedNames, if_pos hr]
        rw [htn] at hnodup
        exact ih seen k' row (by simpa using hk) hne hempty
          (fun i hi r h hn => hprev (i + 1) (Nat.succ_lt_succ hi) r (by simpa using h) hn)
          hnodup
      · obtain ⟨v0, hv0, hv0ne⟩ := hprev 0 (Nat.succ_pos _) r0 (by simp) hr
        have htn : trimmedNames header ((r0 :: rest).take (k' + 1))
            = pyStrip v0 :: trimmedNames header (rest.take k') := by
          rw [List.take_succ_cons]
          simp only [trimmedNames, if_neg hr, hv0]
        rw [htn] at hnodup
        have hnodup' : (pyStrip v0 :: (seen ++ trimmedNames header (rest.take k'))).Nodup :=
          List.perm_middle.nodup_iff.mp hnodup
        have hnotin : pyStrip v0 ∉ seen := fun hm =>
          (List.nodup_cons.mp hnodup').1 (List.mem_append_left _ hm)
        simp only [checkRows, if_neg hr, hv0]
        rw [if_neg hv0ne, if_neg hnotin]
        exact ih (pyStrip v0 :: seen) k' row (by simpa using hk) hne hempty
          (fun i hi r h hn => hprev (i + 1) (Nat.succ_lt_succ hi) r (by simpa using h) hn)
          hnodup'

/-! ## Claim theorems -/

/-- C1: a node CSV file whose header row contains a field named `name`,
and in which every (non-blank) record has a `name` value whose stripped
form is non-empty, with all stripped values pairwise distinct across the
file, makes `validate_node_csv_structure` return normally. -/
theorem node_valid_file_ok (header : List String) (rows : List (List String))
    (hname : "name" ∈ header)
    (hvals : ∀ r ∈ rows, r ≠ [] → ∃ v, dictGet header r = some v ∧ pyStrip v ≠ "")
    (hnodup : (trimmedNames header rows).Nodup) :
    validate_node_csv_structure (header :: rows) = .ok := by
  simp only [validate_node_csv_structure, if_pos hname]
  exact checkRows_ok header rows [] hvals (by simpa using hnodup)

/-- Witness for C1: the spec's concrete scenario, header `name;type` with
rows `A;x` and `B;y`, validates successfully. -/
theorem node_valid_file_ok_witness :
    validate_node_csv_structure [["name", "type"], ["A", "x"], ["B", "y"]] = .ok :=
  node_valid_file_ok ["name", "type"] [["A", "x"], ["B", "y"]]
    (by decide)
    (by
      intro r hr hne
      rcases List.mem_cons.mp hr with rfl | hr
      · exact ⟨"A", by decide, by decide⟩
      rcases List.mem_cons.mp hr with rfl | hr
      · exact ⟨"B", by decide, by decide⟩
      exact absurd hr (List.not_mem_nil r))
    (by decide)

/-- C2: a matrix CSV file in which every row has exactly as many cells as
the file has rows, all cells being exactly "0" or "1", makes
`validate_matrix_csv_structure` return normally. -/
theorem matrix_square_binary_ok (m : List (List String))
    (hlen : ∀ r ∈ m, r.length = m.length)
    (hbin : ∀ r ∈ m, ∀ c ∈ r, c = "0" ∨ c = "1") :
    validate_matrix_csv_structure m = .ok :=
  matrixLoop_ok m.length m 0 hlen hbin

/-- Witness for C2: the spec's 2-by-2 scenario `0;1` / `1;0` validates
successfully. -/
theorem matrix_square_binary_ok_witness :
    validate_matrix_csv_structure [["0", "1"], ["1", "0"]] = .ok :=
  matrix_square_binary_ok [["0", "1"], ["1", "0"]] (by decide) (by decide)

/-- C3: whenever the header row lacks a `name` field, the node validator
fails with the missing-column structural error, whatever the data rows
hold (the result does not depend on `rows` at all). -/
theorem node_missing_name_column (header : List String) (rows : List (List String))
    (h : "name" ∉ header) :
    validate_node_csv_structure (header :: rows) = .errMissingName := by
  simp only [validate_node_csv_structure, if_neg h]

/-- Witness for C3: a header `id;type` without `name` fails with the
missing-column error even though the data rows are well formed. -/
theorem node_missing_name_column_witness :
    validate_node_csv_structure [["id", "type"], ["A", "x"], ["B", "y"]] = .errMissingName :=
  node_missing_name_column ["id", "type"] [["A", "x"], ["B", "y"]] (by decide)

/-- Counterexample to C4 as stated: the matrix `2;0` / `1` has a row whose
cell count (1) differs from the row count (2), yet the validator reports
the binary violation for the cell "2" of the earlier, correctly sized row,
not the squareness violation. -/
theorem matrix_squareness_claim_counterexample :
    validate_matrix_csv_structure [["2", "0"], ["1"]] = .errNotBinary "2" 1 1 ∧
    validate_matrix_csv_structure [["2", "0"], ["1"]] ≠ .errNotSquare := by decide

/-- C4 (amended): a matrix with a row of the wrong cell count at index `k`
fails with the squareness violation provided every earlier row has the
correct length and only binary cells; row `k` itself is unconstrained, so
a row that is both the wrong length and non-binary still yields the
squareness error. -/
theorem matrix_not_square_first (m : List (List String)) (k : Nat) (row : List String)
    (hk : m[k]? = some row)
    (hlen : row.length ≠ m.length)
    (hprev : ∀ i < k, ∀ r, m[i]? = some r →
      r.length = m.length ∧ ∀ c ∈ r, c = "0" ∨ c = "1") :
    validate_matrix_csv_structure m = .errNotSquare :=
  matrixLoop_not_square m.length m 0 k row hk hlen hprev

/-- Witness for the amended C4: the spec's scenario `0;1;0` / `1;0` (first
row of length 3 in a 2-row file) fails with the squareness error; here the
offending row is the very first one and is itself non-binary-free. -/
theorem matrix_not_square_first_witness :
    validate_matrix_csv_structure [["0", "1", "0"], ["1", "x"]] = .errNotSquare :=
  matrix_not_square_first [["0", "1", "0"], ["1", "x"]] 0 ["0", "1", "0"]
    (by decide) (by decide)
    (by intro i hi r hr; omega)

/-- C5: in a square matrix, the first cell in row-major order whose exact
string value is neither "0" nor "1" is reported by the binary violation,
carrying that exact value and its 1-based row and column. -/
theorem matrix_not_binary_first (m : List (List String)) (i j : Nat)
    (row : List String) (v : String)
    (hsq : ∀ r ∈ m, r.length = m.length)
    (hi : m[i]? = some row) (hj : row[j]? = some v)
    (hv : ¬(v = "0" ∨ v = "1"))
    (hrowprev : ∀ i' < i, ∀ r, m[i']? = some r → ∀ c ∈ r, c = "0" ∨ c = "1")
    (hcolprev : ∀ j' < j, ∀ c, row[j']? = some c → c = "0" ∨ c = "1") :
    validate_matrix_csv_structure m = .errNotBinary v (i + 1) (j + 1) := by
  have h := matrixLoop_not_binary m.length v j hv m 0 i row hi hj hsq hrowprev hcolprev
  simpa using h

/-- Witness for C5: the spec's scenario `0;1` / `1;2` fails citing the
value "2" at row 2, column 2. -/
theorem matrix_not_binary_first_witness :
    validate_matrix_csv_structure [["0", "1"], ["1", "2"]] = .errNotBinary "2" 2 2 :=
  matrix_not_binary_first [["0", "1"], ["1", "2"]] 1 1 ["1", "2"] "2"
    (by decide) (by decide) (by decide) (by decide)
    (by
      intro i' hi' r hr
      have : i' = 0 := by omega
      subst this
      obtain rfl : ["0", "1"] = r := by simpa using hr
      decide)
    (by
      intro j' hj' c hc
      have : j' = 0 := by omega
      subst this
      obtain rfl : "1" = c := by simpa using hc
      decide)

/-- Counterexample to C6 as stated: the node file with header `name;type`
and rows `A;x`, `A;y`, `;z` contains a row whose `name` strips to the
empty string, yet the validator reports the duplicate violation (for the
earlier repeated `A`), not the empty-value violation. -/
theorem node_empty_value_claim_counterexample :
    validate_node_csv_structure [["name", "type"], ["A", "x"], ["A", "y"], ["", "z"]]
      = .errDuplicate ∧
    validate_node_csv_structure [["name", "type"], ["A", "x"], ["A", "y"], ["", "z"]]
      ≠ .errEmptyValue := by decide

/-- C6 (amended): a node file with a `name` header fails with the
empty-value structural error at the first record (index `k`) whose `name`
strips to the empty string, provided every earlier non-blank record has a
present `name` cell with a non-empty stripped value and those earlier
values are pairwise distinct (i.e. the empty name is the first violation
in file order); later records are never examined. -/
theorem node_empty_value_first (header : List String) (rows : List (List String))
    (k : Nat) (row : List String)
    (hname : "name" ∈ header)
    (hk : rows[k]? = some row) (hne : row ≠ [])
    (hempty : ∃ v, dictGet header row = some v ∧ pyStrip v = "")
    (hprev : ∀ i < k, ∀ r, rows[i]? = some r → r ≠ [] →
      ∃ v, dictGet header r = some v ∧ pyStrip v ≠ "")
    (hnodup : (trimmedNames header (rows.take k)).Nodup) :
    validate_node_csv_structure (header :: rows) = .errEmptyValue := by
  simp only [validate_node_csv_structure, if_pos hname]
  exact checkRows_emptyValue header rows [] k row hk hne hempty hprev (by simpa using hnodup)

/-- Witness for the amended C6: header `name;type`, rows `A;x` then `  ;y`
(whitespace-only name in the second record) fail with the empty-value
error. -/
theorem node_empty_value_first_witness :
    validate_node_csv_structure [["name", "type"], ["A", "x"], ["  ", "y"]]
      = .errEmptyValue :=
  node_empty_value_first ["name", "type"] [["A", "x"], ["  ", "y"]] 1 ["  ", "y"]
    (by decide) (by decide) (by decide)
    ⟨"  ", by decide, by decide⟩
    (by
      intro i hi r hr hn
      have : i = 0 := by omega
      subst this
      obtain rfl : ["A", "x"] = r := by simpa using hr
      exact ⟨"A", by decide, by decide⟩)
    (by decide)

/-- C7: a node file with a `name` header in which every (non-blank) record
has a present `name` value with non-empty stripped form, but at least two
records share the same stripped value, fails with the duplicate structural
error; comparison is on stripped values, so names differing only in
surrounding whitespace collide. -/
theorem node_duplicate_names (header : List String) (rows : List (List String))
    (hname : "name" ∈ header)
    (hvals : ∀ r ∈ rows, r ≠ [] → ∃ v, dictGet header r = some v ∧ pyStrip v ≠ "")
    (hdup : ¬ (trimmedNames header rows).Nodup) :
    validate_node_csv_structure (header :: rows) = .errDuplicate := by
  simp only [validate_node_csv_structure, if_pos hname]
  exact checkRows_duplicate header rows [] hvals List.nodup_nil (by simpa using hdup)

/-- Witness for C7: rows `A` and ` A` (same name up to surrounding
whitespace) under a single `name` header fail with the duplicate error. -/
theorem node_duplicate_names_witness :
    validate_node_csv_structure [["name"], ["A"], [" A"]] = .errDuplicate :=
  node_duplicate_names ["name"] [["A"], [" A"]]
    (by decide)
    (by
      intro r hr hne
      rcases List.mem_cons.mp hr with rfl | hr
      · exact ⟨"A", by decide, by decide⟩
      rcases List.mem_cons.mp hr with rfl | hr
      · exact ⟨" A", by decide, by decide⟩
      exact absurd hr (List.not_mem_nil r))
    (by decide)

/-- C8: prepending a UTF-8 byte-order mark to matrix file content that
does not itself begin with one leaves the validator's outcome unchanged:
the `utf-8-sig` decoding strips the mark before parsing, so it never
reaches the first cell's value. -/
theorem matrix_bom_agnostic (cs : List Char) (h : cs.head? ≠ some BOM) :
    validate_matrix_file (BOM :: cs) = validate_matrix_file cs := by
  have h1 : decode_utf8_sig (BOM :: cs) = cs := by simp [decode_utf8_sig]
  have h2 : decode_utf8_sig cs = cs := by
    cases cs with
    | nil => rfl
    | cons c rest =>
      simp only [decode_utf8_sig]
      rw [if_neg]
      intro hc
      exact h (by simp [hc])
  unfold validate_matrix_file
  rw [h1, h2]

/-- Witness for C8: the one-cell file `1` validates the same with and
without a leading byte-order mark. -/
theorem matrix_bom_agnostic_witness :
    validate_matrix_file (BOM :: ['1']) = validate_matrix_file ['1'] :=
  matrix_bom_agnostic ['1'] (by decide)

/-- C9: a completely empty matrix file parses to zero rows, and the
validator accepts it: with a row count of 0 both per-row checks are
vacuous, so the 0-by-0 matrix returns normally (shown both for the
empty parsed grid and for the whole pipeline on empty content). -/
theorem matrix_empty_file_ok :
    validate_matrix_csv_structure [] = .ok ∧ validate_matrix_file [] = .ok := by decide

/-- C10: on a completely empty node file (no header row at all) the
validator does not produce the missing-column structural error: the
header-field set is absent (`fieldnames` is `None`) and the membership
test on it raises `TypeError`, a different, non-structural exception. -/
theorem node_empty_file_typeerror :
    validate_node_csv_structure [] = .errTypeError ∧
    validate_node_csv_structure [] ≠ .errMissingName := by decide

end OptiCIF
